import Mathlib

/-!
Verification of the herbe.rt bancho server core against its specification.

The Python source is shallowly embedded: byte strings are `List Nat`
(each element a byte value 0..255), machine integers are `Nat`/`Int`
with explicit reduction modulo `2^w` where the source packs them with
`struct`, and the mutable stores (per-user outbound byte queues, channel
membership, match state) are explicit state values threaded through the
translated functions.  `f32`/`f64` fields are modelled by their
little-endian wire bit patterns (a `Nat`), since the source only moves
them between byte strings and the round-trip properties at issue are
decided by byte positions, not float arithmetic.

The `constants` package (packet id enum, privilege bitmask values) is
not part of the provided sources; nothing proved here depends on the
numeric values of those enums, so functions that mention a packet id or
privilege mask take it as an explicit argument.
-/

namespace Herbert

/-! ## Wire primitives (src/packets/typing.py, src/packets/writer.py) -/

/-- `w` little-endian bytes of `v` (the byte string `struct.pack` produces
for an in-range value, after reducing `v` modulo `2^(8*w)`). -/
def leBytes : Nat → Nat → List Nat
  | 0, _ => []
  | w + 1, v => v % 256 :: leBytes w (v / 256)

/-- `int.from_bytes(data, "little")` (unsigned). -/
def natFromLE (bs : List Nat) : Nat :=
  bs.foldr (fun b acc => b % 256 + 256 * acc) 0

/-- `u8.write` (struct `<B`). -/
def u8write (n : Nat) : List Nat := leBytes 1 (n % 2 ^ 8)

/-- `u16.write` (struct `<H`). -/
def u16write (n : Nat) : List Nat := leBytes 2 (n % 2 ^ 16)

/-- `u32.write` (struct `<I`). -/
def u32write (n : Nat) : List Nat := leBytes 4 (n % 2 ^ 32)

/-- `i16.write` (struct `<h`): two's-complement little-endian. -/
def i16write (n : Int) : List Nat := leBytes 2 (n % 2 ^ 16).toNat

/-- `i32.write` (struct `<i`): two's-complement little-endian. -/
def i32write (n : Int) : List Nat := leBytes 4 (n % 2 ^ 32).toNat

/-- `i64.write` (struct `<q`): two's-complement little-endian. -/
def i64write (n : Int) : List Nat := leBytes 8 (n % 2 ^ 64).toNat

/-- `read_int(data, signed=True)` over the bytes actually taken:
`int.from_bytes(data, "little", signed=True)`. -/
def intFromLEsigned (bs : List Nat) : Int :=
  let v := natFromLE bs
  if bs ≠ [] ∧ 2 ^ (8 * bs.length - 1) ≤ v then
    (v : Int) - 2 ^ (8 * bs.length)
  else
    (v : Int)

/-- `Packet.read(count)`: take `count` bytes off the front of the cursor
(permissively fewer when the data runs short), returning them and the
remaining data. -/
def pRead (count : Nat) (d : List Nat) : List Nat × List Nat :=
  (d.take count, d.drop count)

/-- `u8.read`. -/
def readU8 (d : List Nat) : Nat × List Nat :=
  ((pRead 1 d).1.foldr (fun b acc => b % 256 + 256 * acc) 0, (pRead 1 d).2)

/-- `u16.read`. -/
def readU16 (d : List Nat) : Nat × List Nat :=
  (natFromLE (pRead 2 d).1, (pRead 2 d).2)

/-- `i32.read`. -/
def readI32 (d : List Nat) : Int × List Nat :=
  (intFromLEsigned (pRead 4 d).1, (pRead 4 d).2)

/-- `f32.read`, by wire bit pattern. -/
def readF32bits (d : List Nat) : Nat × List Nat :=
  (natFromLE (pRead 4 d).1, (pRead 4 d).2)

/-- `f32.write`, by wire bit pattern. -/
def f32write (bits : Nat) : List Nat := leBytes 4 (bits % 2 ^ 32)

/-- The ULEB128 loop of `String.write` for a positive length. -/
def uleb128 (v : Nat) : List Nat :=
  let lo := v % 128
  let rest := v / 128
  if h : rest = 0 then [lo] else (lo + 128) :: uleb128 rest
  decreasing_by
    exact Nat.div_lt_self (Nat.pos_of_ne_zero fun hv => h (by simp [hv, rest])) (by omega)

/-- UTF-8 bytes of a Lean string, as byte values. -/
def strBytes (s : String) : List Nat :=
  (s.data.flatMap String.utf8EncodeChar).map UInt8.toNat

/-- `String.write`: `0x00` for the empty string, else `0x0b`, the ULEB128
length of the UTF-8 encoding, then the encoded bytes. -/
def stringWrite (s : String) : List Nat :=
  let enc := strBytes s
  if enc.length = 0 then [0x00] else 0x0b :: uleb128 enc.length ++ enc

/-- `PacketWriter.serialise`: `i16` packet id, one zero pad byte, `u32`
payload length, then the payload (src/packets/writer.py lines 25-35). -/
def pwSerialise (packetId : Nat) (payload : List Nat) : List Nat :=
  i16write packetId ++ u8write 0 ++ u32write payload.length ++ payload

/-! ## C1 — token-bearing POST requests (src/api/bancho.py lines 45-62)

`bancho_request` handles `POST /`.  When the `osu-token` header is
present the function neither looks the token up, nor splits the body
into packets, nor drains a queue: its final statement is `return b""`,
so every token-bearing request gets an empty response body.  The
dispatch pipeline the claim describes (`handle_packet_data`,
src/api/packets.py lines 193-208) exists but has no caller anywhere in
the sources, and `repositories.sessions.fetch_by_token` is likewise
never called. -/

/-- The token branch of `bancho_request`: the source ignores the token
and the body and returns the empty byte string. -/
def banchoRequestWithToken (_osuToken : String) (_body : List Nat) : List Nat :=
  []

/-- `restart_server(time)` (src/usecases/packets.py lines 72-76): the
CHO_RESTART packet the claim expects for an unknown token.  The packet
id value lives in the absent `constants` package, so it is a
parameter. -/
def choRestartPacket (restartPacketId : Nat) (time : Int) : List Nat :=
  pwSerialise restartPacketId (i32write time)

/-! ## C2 — codec round-trips (src/packets/typing.py)

`ReplayFrame.serialise` (lines 426-436) writes `taiko_byte` twice, so it
emits 15 bytes where `ReplayFrame.read` (lines 404-412) consumes 14:
every non-degenerate frame fails `decode(encode(P)) == P`.
(`ReplayFrameBundle` additionally serialises
`score_frame ‖ sequence ‖ action` while its reader expects
`action ‖ score_frame ‖ sequence`, breaking the bundle round-trip as
well; one failing payload type refutes the universal claim.) -/

structure ReplayFrame where
  buttonState : Nat
  taikoByte : Nat
  xBits : Nat
  yBits : Nat
  time : Int
  deriving DecidableEq, Repr

/-- `ReplayFrame.read`: u8, u8, f32, f32, i32 in order. -/
def ReplayFrame.read (d : List Nat) : ReplayFrame × List Nat :=
  let (buttonState, d) := readU8 d
  let (taikoByte, d) := readU8 d
  let (x, d) := readF32bits d
  let (y, d) := readF32bits d
  let (time, d) := readI32 d
  (⟨buttonState, taikoByte, x, y, time⟩, d)

/-- `ReplayFrame.serialise`, line for line; the source appends
`self.taiko_byte` twice (src/packets/typing.py lines 430-431). -/
def ReplayFrame.serialise (f : ReplayFrame) : List Nat :=
  u8write f.buttonState
    ++ u8write f.taikoByte
    ++ u8write f.taikoByte
    ++ f32write f.xBits
    ++ f32write f.yBits
    ++ i32write f.time

/-- A concrete frame on which the round-trip fails: the duplicated
`taiko_byte` (1) is consumed as the low byte of `x`. -/
def c2Frame : ReplayFrame := ⟨0, 1, 0, 0, 0⟩

/-! ## C9 — outbound queues (src/usecases/sessions.py lines 26-48)

The store holds one byte string per user id (`queues:<user_id>`).
`enqueue_data` is a redis APPEND (creating the key when absent);
`dequeue_data` GETs the bytes, returns `b""` without deleting when the
key is absent or empty, and otherwise returns the bytes and DELETEs the
key.  The key space is modelled as an association list with at most one
entry per user id. -/

abbrev Queues := List (Nat × List Nat)

/-- `enqueue_data(user_id, data)`: append to the user's byte string,
creating it when absent. -/
def enqueueData (userId : Nat) (data : List Nat) : Queues → Queues
  | [] => [(userId, data)]
  | (k, v) :: rest =>
    if k = userId then (k, v ++ data) :: rest
    else (k, v) :: enqueueData userId data rest

/-- Redis GET of a user's queue (absent key reads as empty). -/
def getQueue (qs : Queues) (userId : Nat) : List Nat :=
  match qs with
  | [] => []
  | (k, v) :: rest => if k = userId then v else getQueue rest userId

/-- Redis DELETE of a user's queue key. -/
def delQueue (userId : Nat) : Queues → Queues
  | [] => []
  | (k, v) :: rest =>
    if k = userId then delQueue userId rest else (k, v) :: delQueue userId rest

/-- `dequeue_data(user_id)`: destructive read of the user's queue. -/
def dequeueData (userId : Nat) (qs : Queues) : List Nat × Queues :=
  let data := getQueue qs userId
  if data = [] then ([], qs)
  else (data, delQueue userId qs)

/-- Appending a batch of byte strings in order. -/
def enqueueAll (userId : Nat) (ds : List (List Nat)) (qs : Queues) : Queues :=
  ds.foldl (fun s d => enqueueData userId d s) qs

/-! ## C6 — login version gate (src/api/bancho.py lines 65-75)

Dates are modelled as proleptic-Gregorian ordinals (`date.toordinal`),
on which `date` comparison and `timedelta(days=90)` subtraction act as
integer order and subtraction.  `parsed` is the date field of
`parse_osu_version(login_data.osu_version)` (src/usecases/version.py
lines 17-38), `none` when the regex did not match.  The source runs

    osu_version.date = date.today()
    if not osu_version or osu_version.date < (date.today() - DELTA_90_DAYS):
        return LoginResponse(body=version_update_forced() + user_id(-2))

so a failed parse raises `AttributeError` on the attribute assignment
before the test (modelled as `none`), and a successful parse has its
date overwritten with today's date before being compared.  `some true`
is the forced-update response, `some false` is login proceeding past
the gate. -/
def loginVersionGate (parsed : Option Int) (today : Int) : Option Bool :=
  match parsed with
  | none => none
  | some _parsedDate =>
    let date := today
    some (decide (date < today - 90))

/-! ## Match model (src/models/match.py) -/

namespace SlotStatus

def OPEN : Nat := 1
def LOCKED : Nat := 2
def NOT_READY : Nat := 4
def READY : Nat := 8
def NO_MAP : Nat := 16
def PLAYING : Nat := 32
def COMPLETE : Nat := 64
def QUIT : Nat := 128
def HAS_USER : Nat := NOT_READY ||| READY ||| NO_MAP ||| PLAYING ||| COMPLETE

end SlotStatus

namespace MatchTeam

def NEUTRAL : Nat := 0
def BLUE : Nat := 1
def RED : Nat := 2

end MatchTeam

namespace MatchTeamType

def HEAD_TO_HEAD : Nat := 0
def TAG_COOP : Nat := 1
def TEAM_VS : Nat := 2
def TAG_TEAM_VS : Nat := 3

end MatchTeamType

/-- A match slot (src/models/match.py lines 47-71).  `user` mirrors the
attribute that `Slot.reset` assigns (`self.user = None`) in place of the
declared `session_id` field; it is carried as a ghost attribute so the
translation of `reset` is exact.  (Pydantic would in fact reject the
assignment of an undeclared attribute at runtime, which equally fails to
vacate the slot.) -/
structure Slot where
  sessionId : Option Nat := none
  status : Nat := SlotStatus.OPEN
  team : Nat := MatchTeam.NEUTRAL
  mods : Nat := 0
  loaded : Bool := false
  skipped : Bool := false
  user : Option Nat := none
  deriving DecidableEq, Repr, Inhabited

/-- `Slot.empty`. -/
def Slot.empty (s : Slot) : Bool := s.sessionId.isNone

/-- `Slot.copy_from(other)`: the receiving slot takes the other slot's
session id, status, team and mods. -/
def Slot.copyFrom (s other : Slot) : Slot :=
  { s with sessionId := other.sessionId, status := other.status,
           team := other.team, mods := other.mods }

/-- `Slot.reset(new_status)` (src/models/match.py lines 65-71): the
source assigns `self.user = None` — not `self.session_id` — so the
session id survives the reset. -/
def Slot.reset (newStatus : Nat) (s : Slot) : Slot :=
  { s with user := none, status := newStatus, team := MatchTeam.NEUTRAL,
           mods := 0, loaded := false, skipped := false }

structure Match where
  id : Nat
  name : String := ""
  hostId : Nat
  mods : Nat := 0
  mode : Nat := 0
  mapId : Option Int := none
  mapMd5 : Option String := none
  mapTitle : Option String := none
  lastMapId : Option Int := none
  freemod : Bool := false
  slots : List Slot := List.replicate 16 {}
  password : Option String := none
  refs : List Nat := []
  teamType : Nat := MatchTeamType.HEAD_TO_HEAD
  winCondition : Nat := 0
  inProgress : Bool := false
  seed : Int := 0
  tourneyClients : List Nat := []
  deriving DecidableEq, Repr

/-- `Match.get_slot(session_id)`. -/
def Match.getSlot (m : Match) (sessionId : Nat) : Option Slot :=
  m.slots.find? (fun s => s.sessionId == some sessionId)

/-- `Match.get_slot_idx(session_id)`. -/
def Match.getSlotIdx (m : Match) (sessionId : Nat) : Option Nat :=
  m.slots.findIdx? (fun s => s.sessionId == some sessionId)

/-- `Match.get_next_free_slot_idx()`: index of the first OPEN slot. -/
def Match.getNextFreeSlotIdx (m : Match) : Option Nat :=
  m.slots.findIdx? (fun s => s.status == SlotStatus.OPEN)

/-- Python truthiness of an `Optional[str]`. -/
def pyTruthyStr : Option String → Bool
  | none => false
  | some s => s ≠ ""

/-! ## C4 — joining a match (src/usecases/sessions.py lines 240-289)

`join_match` is embedded as its effect on the match value; the channel
join/leave and the byte enqueues it also performs never touch match
slots.  `JoinOutcome.fail` stands for the branches that enqueue
MATCH_JOIN_FAIL and return, `JoinOutcome.joined` for the success path
that persists the mutated match.

The slot-selection line of the source is

    if slot_id := match.get_next_free_slot_idx() is None:

`:=` binds looser than `is`, so `slot_id` receives the *boolean*
`get_next_free_slot_idx() is None`; when a free slot exists that boolean
is `False`, which the subsequent `match.slots[slot_id]` uses as list
index `0`. -/

inductive JoinOutcome where
  | fail : JoinOutcome
  | joined : Match → JoinOutcome
  deriving DecidableEq, Repr

/-- The slot mutation of `join_match`'s success path (lines 275-283):
team forced RED for the VS team types, status NOT_READY, session id
set. -/
def joinAssign (m : Match) (sessionId : Nat) (slotId : Nat) : Match :=
  let slot := m.slots.getD slotId default
  let slot :=
    if m.teamType = MatchTeamType.TEAM_VS ∨ m.teamType = MatchTeamType.TAG_TEAM_VS then
      { slot with team := MatchTeam.RED }
    else slot
  let slot := { slot with status := SlotStatus.NOT_READY, sessionId := some sessionId }
  { m with slots := m.slots.set slotId slot }

/-- `join_match(session, match, password)`, for a session with id
`sessionId` currently in match `sessionMatch`. -/
def joinMatch (sessionId : Nat) (sessionMatch : Option Nat) (m : Match)
    (password : Option String) : JoinOutcome :=
  if sessionMatch.isSome then .fail
  else if sessionId ∈ m.tourneyClients then .fail
  else
    let slotIdOpt : Option Nat :=
      if sessionId = m.hostId then some 0
      else if pyTruthyStr m.password ∧ password ≠ m.password then none
      else if m.getNextFreeSlotIdx.isNone then none
      else some 0  -- the walrus-bound boolean `False`, used as index 0
    match slotIdOpt with
    | none => .fail
    | some slotId => .joined (joinAssign m sessionId slotId)

/-! ## C5 — leaving a match (src/usecases/sessions.py lines 292-342)

Embedded as the effect on the match-store entry plus the two observable
broadcasts the claim mentions.  The `#multi_<id>` channel leave and the
per-session byte enqueues are elided: they do not touch match state or
the store entry.  A `none` result models a raised `AssertionError`. -/

structure LeaveResult where
  store : Option Match
  disposeBroadcast : Bool
  hostTransferTo : Option Nat
  deriving DecidableEq, Repr

/-- `leave_match(session, match)`. -/
def leaveMatch (sessionId : Nat) (sessionMatch : Option Nat) (m : Match) :
    Option LeaveResult :=
  if sessionMatch.isNone then some ⟨some m, false, none⟩
  else
    match m.getSlotIdx sessionId with
    | none => none
    | some idx =>
      let slot := m.slots.getD idx default
      let newStatus :=
        if slot.status = SlotStatus.LOCKED then SlotStatus.LOCKED else SlotStatus.OPEN
      let m := { m with slots := m.slots.set idx (Slot.reset newStatus slot) }
      if m.slots.all (fun s => s.empty) then
        some ⟨none, true, none⟩
      else
        let transferred : Option (Option Nat) :=
          if sessionId = m.hostId then
            match m.slots.find? (fun s => (s.status &&& SlotStatus.HAS_USER) != 0) with
            | none => some none
            | some s =>
              match s.sessionId with
              | none => none  -- assert slot.session_id is not None
              | some t => some (some t)
          else some none
        match transferred with
        | none => none
        | some target =>
          let m := match target with
                   | some t => { m with hostId := t }
                   | none => m
          let m := { m with refs := m.refs.erase sessionId }
          some ⟨some m, false, target⟩

/-! ## C7 — MATCH_CHANGE_SLOT (src/api/packets.py lines 650-671)

The handler's range test is

    if 0 <= packet.slot_id < 16:
        return

so an in-range slot id returns with no state change and only
out-of-range ids reach the move logic, where `match.slots[slot_id]`
wraps negative indices and raises IndexError otherwise.  A `none`
result models a raised exception. -/

/-- Python list-index resolution for a list of length `n`: negatives
wrap once, anything else out of bounds raises. -/
def pyIndexIdx (n : Nat) (i : Int) : Option Nat :=
  let j := if i < 0 then i + n else i
  if 0 ≤ j ∧ j < n then some j.toNat else none

/-- `change_match_slot(packet, session)`, as its effect on the match. -/
def changeMatchSlot (sessionMatch : Option Nat) (sessionId : Nat) (slotId : Int)
    (m : Match) : Option Match :=
  if sessionMatch.isNone then some m
  else if 0 ≤ slotId ∧ slotId < 16 then some m
  else
    match m.getSlotIdx sessionId with
    | none => none  -- assert old_slot is not None
    | some oldIdx =>
      match pyIndexIdx m.slots.length slotId with
      | none => none  -- IndexError on match.slots[packet.slot_id]
      | some newIdx =>
        let newSlot := m.slots.getD newIdx default
        if newSlot.status ≠ SlotStatus.OPEN then some m
        else
          let m := { m with slots := m.slots.set newIdx (Slot.copyFrom newSlot (m.slots.getD oldIdx default)) }
          let m := { m with slots := m.slots.set oldIdx (Slot.reset SlotStatus.OPEN (m.slots.getD oldIdx default)) }
          some m

/-! Concrete fixtures for the match claims. -/

/-- Host (id 1) occupies slot 0; slots 1-15 are OPEN. -/
def c4Match : Match :=
  { id := 1, hostId := 1,
    slots := { sessionId := some 1, status := SlotStatus.NOT_READY } :: List.replicate 15 {} }

/-- Sole occupant (id 5, the host) in slot 0 of match 1. -/
def c5Match : Match :=
  { id := 1, hostId := 5,
    slots := { sessionId := some 5, status := SlotStatus.NOT_READY } :: List.replicate 15 {} }

/-- Caller (id 3) in slot 0; slot 1 OPEN. -/
def c7Match : Match :=
  { id := 1, hostId := 3,
    slots := { sessionId := some 3, status := SlotStatus.NOT_READY } :: List.replicate 15 {} }

/-! ## Messaging (src/api/packets.py lines 237-279 and 349-379,
src/usecases/channels.py, src/usecases/sessions.py lines 190-205)

Packet id values and the ADMIN_MANAGE_USERS privilege bit live in the
absent `constants` package; they are bundled into a `Consts` record that
the translated handlers take as a parameter.  Wall-clock time enters
only through `Session.silenced`; `now` (`int(time.time())`) is passed
explicitly. -/

structure Consts where
  pidSendMessage : Nat := 0
  pidDmBlocked : Nat := 0
  pidTargetSilenced : Nat := 0
  adminManageUsersMask : Nat := 0
  deriving Repr

/-- The fields of `models.user.Session` the message handlers read. -/
structure SessionRec where
  id : Nat
  name : String
  privileges : Nat
  silenceEnd : Int
  friends : List Nat
  friendOnlyDms : Bool
  spectating : Option Nat
  deriving DecidableEq, Repr

/-- `Session.silence_expire` (src/models/user.py lines 128-133). -/
def SessionRec.silenceExpire (s : SessionRec) (now : Int) : Int :=
  if s.silenceEnd = 0 then 0 else s.silenceEnd - now

/-- `Session.silenced` (src/models/user.py lines 135-137). -/
def SessionRec.silenced (s : SessionRec) (now : Int) : Bool :=
  s.silenceExpire now > now

/-- The fields of `models.channel.Channel` the message handlers read. -/
structure ChannelRec where
  name : String
  publicWrite : Bool
  temp : Bool := false
  members : List Nat
  deriving DecidableEq, Repr

/-- `utils.make_safe_name`: lower-case, spaces to underscores (modelled
per character; the fixture names are ASCII). -/
def makeSafeName (name : String) : String :=
  ⟨(name.data.map Char.toLower).map (fun ch => if ch = ' ' then '_' else ch)⟩

/-- Python `str.strip()` whitespace (ASCII range). -/
def pyIsSpace (c : Char) : Bool :=
  c = ' ' ∨ c = '\t' ∨ c = '\n' ∨ c = '\x0b' ∨ c = '\x0c' ∨ c = '\r'

/-- Python `str.strip()`. -/
def pyStrip (s : String) : String :=
  ⟨((s.data.dropWhile pyIsSpace).reverse.dropWhile pyIsSpace).reverse⟩

/-- Python `str(x)` for an `Optional[int]` (`f"#spec_{session.spectating}"`). -/
def pyStrOptNat : Option Nat → String
  | none => "None"
  | some n => toString n

/-- The shared state the message handlers touch: session store, channel
store, and per-user outbound byte queues. -/
structure World where
  sessions : List SessionRec
  channels : List ChannelRec
  queues : Queues
  deriving DecidableEq, Repr

/-- `repositories.sessions.fetch_by_name`: sessions are stored under
their safe name and looked up by the safe form of the query. -/
def fetchSessionByName (w : World) (name : String) : Option SessionRec :=
  w.sessions.find? (fun s => makeSafeName s.name == makeSafeName name)

/-- `repositories.channels.fetch_by_name` (stored under the raw name,
looked up by safe name). -/
def fetchChannelByName (w : World) (name : String) : Option ChannelRec :=
  w.channels.find? (fun ch => ch.name == makeSafeName name)

/-- `Message.serialise` (src/packets/typing.py lines 221-228). -/
def messageBytes (senderUsername content recipientUsername : String)
    (senderId : Int) : List Nat :=
  stringWrite senderUsername ++ stringWrite content
    ++ stringWrite recipientUsername ++ i32write senderId

/-- `usecases.packets.send_message`. -/
def sendMessagePacket (c : Consts) (senderUsername content recipientUsername : String)
    (senderId : Int) : List Nat :=
  pwSerialise c.pidSendMessage (messageBytes senderUsername content recipientUsername senderId)

/-- `usecases.packets.private_message_blocked`. -/
def dmBlockedPacket (c : Consts) (recipientName : String) : List Nat :=
  pwSerialise c.pidDmBlocked (stringWrite recipientName)

/-- `usecases.packets.target_silenced`. -/
def targetSilencedPacket (c : Consts) (recipientName : String) : List Nat :=
  pwSerialise c.pidTargetSilenced (stringWrite recipientName)

/-- `usecases.sessions.receive_message`: enqueue a SEND_MESSAGE packet
to the recipient. -/
def receiveMessage (c : Consts) (recipient : SessionRec) (content : String)
    (sender : SessionRec) (w : World) : World :=
  let packet := sendMessagePacket c sender.name content recipient.name (sender.id : Int)
  { w with queues := enqueueData recipient.id packet w.queues }

/-- `usecases.channels.send_message` / `send_message_selective`:
everyone in the channel except the sender (unless `to_self`), with the
ephemeral channel names rewritten for the wire. -/
def sendMessageToChannel (c : Consts) (ch : ChannelRec) (content : String)
    (sender : SessionRec) (toSelf : Bool) (w : World) : World :=
  let toSend := if toSelf then ch.members else ch.members.erase sender.id
  let channelName :=
    if ch.name.startsWith "#multi_" then "#multiplayer"
    else if ch.name.startsWith "#spec_" then "#spectator"
    else ch.name
  let packet := sendMessagePacket c sender.name content channelName (sender.id : Int)
  { w with queues := toSend.foldl (fun qs r => enqueueData r packet qs) w.queues }

/-- `send_private_message` (src/api/packets.py lines 349-379).  Note the
source enqueues USER_DM_BLOCKED (and TARGET_IS_SILENCED) to the sender
*without returning*, then calls `receive_message` unconditionally. -/
def sendPrivateMessage (c : Consts) (now : Int) (w : World) (sender : SessionRec)
    (content recipientName : String) : World :=
  if sender.silenced now then w
  else
    let msg := pyStrip content
    if msg = "" then w
    else
      match fetchSessionByName w recipientName with
      | none => w
      | some recipientSession =>
        let w :=
          if recipientSession.friendOnlyDms ∧ sender.id ∉ recipientSession.friends then
            { w with queues := enqueueData sender.id (dmBlockedPacket c recipientName) w.queues }
          else w
        let w :=
          if recipientSession.silenced now then
            { w with queues := enqueueData sender.id (targetSilencedPacket c recipientName) w.queues }
          else w
        receiveMessage c recipientSession msg sender w

/-- `public_message` (src/api/packets.py lines 237-279). -/
def publicMessage (c : Consts) (now : Int) (w : World) (sender : SessionRec)
    (content recipientName : String) : World :=
  if sender.silenced now then w
  else
    let msg := pyStrip content
    if msg = "" then w
    else if recipientName = "#highlight" ∨ recipientName = "#userlog" then w
    else
      let lookupName :=
        if recipientName = "#spectator" then "#spec_" ++ pyStrOptNat sender.spectating
        else recipientName
      match fetchChannelByName w lookupName with
      | none => w
      | some channel =>
        if sender.id ∉ channel.members then w
        else if ¬channel.publicWrite ∧ sender.privileges &&& c.adminManageUsersMask = 0 then w
        else sendMessageToChannel c channel msg sender false w

/-! Concrete fixtures for the DM claim: Bob is online with friend-only
DMs enabled and Alice is not in his friends list; neither is silenced. -/

def c3Alice : SessionRec := ⟨1, "Alice", 0, 0, [], false, none⟩

def c3Bob : SessionRec := ⟨2, "Bob", 0, 0, [], true, none⟩

def c3World : World := ⟨[c3Alice, c3Bob], [], []⟩

/-! ## C8 — logout channel phase (src/usecases/sessions.py lines 90-115)

`logout` iterates `for channel in session.channels` while
`leave_channel` removes the current name from that very list, so the
CPython iterator (an index into the live list) skips every other
element.  The loop is embedded with explicit index-against-current-list
semantics.  The phases of `logout` after the loop — queue drain,
session-store delete, LOGOUT broadcast — do not touch channel
membership and are elided from this state. -/

/-- The state the channel phase of `logout` touches. -/
structure LogoutState where
  sessionChannels : List String
  channels : List ChannelRec
  deriving DecidableEq, Repr

/-- `repositories.channels.update` keyed by name. -/
def storeChannel (ch : ChannelRec) : List ChannelRec → List ChannelRec
  | [] => [ch]
  | c :: rest => if c.name = ch.name then ch :: rest else c :: storeChannel ch rest

/-- `repositories.channels.delete` keyed by name. -/
def deleteChannel (name : String) (channels : List ChannelRec) : List ChannelRec :=
  channels.filter (fun c => c.name ≠ name)

/-- `usecases.channels.remove_user` (lines 16-42), as its effect on the
channel store (its CHANNEL_INFO fan-out writes only queues). -/
def removeUser (channelName : String) (sessionId : Nat)
    (channels : List ChannelRec) : List ChannelRec :=
  match channels.find? (fun ch => ch.name == makeSafeName channelName) with
  | none => channels
  | some ch =>
    let ms := ch.members.erase sessionId
    if ms = [] then deleteChannel ch.name channels
    else storeChannel { ch with members := ms } channels

/-- `usecases.sessions.leave_channel` (lines 90-93): `remove_user`, then
`session.channels.remove(channel_name)`. -/
def leaveChannelState (sessionId : Nat) (channelName : String)
    (st : LogoutState) : LogoutState :=
  { sessionChannels := st.sessionChannels.erase channelName,
    channels := removeUser channelName sessionId st.channels }

/-- The `for channel in session.channels` loop of `logout`, with
CPython's iterator semantics: an index checked against the list as it
stands on each step. -/
def logoutChannelLoop (sessionId : Nat) : Nat → Nat → LogoutState → LogoutState
  | 0, _, st => st
  | fuel + 1, idx, st =>
    match st.sessionChannels[idx]? with
    | none => st
    | some name => logoutChannelLoop sessionId fuel (idx + 1) (leaveChannelState sessionId name st)

/-- The channel phase of `logout(session)`. -/
def logoutChannels (sessionId : Nat) (st : LogoutState) : LogoutState :=
  logoutChannelLoop sessionId (st.sessionChannels.length + 1) 0 st

/-- Session 7 is a member of two channels. -/
def c8State : LogoutState :=
  ⟨["#osu", "#announce"],
   [⟨"#osu", true, false, [7]⟩, ⟨"#announce", true, false, [7]⟩]⟩

end Herbert

namespace Herbert

/-- C1. The claim says a POST with an unknown `osu-token` is answered
with the CHO_RESTART(0) packet bytes and a known token with the
session's drained queue; the code's token branch returns the empty byte
string for every token and every body, while CHO_RESTART(0) is a
non-empty (7-byte-header) packet. -/
theorem C1_token_branch_returns_empty_never_restart :
    (∀ (tok : String) (body : List Nat), banchoRequestWithToken tok body = []) ∧
      ∀ pid : Nat, choRestartPacket pid 0 ≠ [] := by
  refine ⟨fun _ _ => rfl, fun pid => ?_⟩
  simp [choRestartPacket, pwSerialise, i16write, leBytes]

/-- C2. The claim says `decode(encode(P)) == P` for every typed payload,
`ReplayFrame` included; decoding the encoding of the concrete frame
`c2Frame` yields a different frame (its `x` field reads the duplicated
`taiko_byte`). -/
theorem C2_replayframe_roundtrip_fails :
    (ReplayFrame.read c2Frame.serialise).1 ≠ c2Frame := by
  decide

/-! Helper lemmas about the queue store. -/

theorem getQueue_enqueue_self (u : Nat) (d : List Nat) (qs : Queues) :
    getQueue (enqueueData u d qs) u = getQueue qs u ++ d := by
  induction qs with
  | nil => simp [enqueueData, getQueue]
  | cons p rest ih =>
    obtain ⟨k, v⟩ := p
    by_cases h : k = u <;> simp [enqueueData, getQueue, h, ih]

theorem getQueue_delQueue_self (u : Nat) (qs : Queues) :
    getQueue (delQueue u qs) u = [] := by
  induction qs with
  | nil => simp [delQueue, getQueue]
  | cons p rest ih =>
    obtain ⟨k, v⟩ := p
    by_cases h : k = u <;> simp [delQueue, getQueue, h, ih]

theorem dequeue_fst (u : Nat) (qs : Queues) :
    (dequeueData u qs).1 = getQueue qs u := by
  unfold dequeueData
  by_cases h : getQueue qs u = [] <;> simp [h]

theorem getQueue_dequeue_snd (u : Nat) (qs : Queues) :
    getQueue (dequeueData u qs).2 u = [] := by
  unfold dequeueData
  by_cases h : getQueue qs u = [] <;> simp [h, getQueue_delQueue_self]

theorem getQueue_enqueueAll_self (u : Nat) (ds : List (List Nat)) (qs : Queues) :
    getQueue (enqueueAll u ds qs) u = getQueue qs u ++ ds.flatten := by
  induction ds generalizing qs with
  | nil => simp [enqueueAll]
  | cons d ds ih =>
    have : enqueueAll u (d :: ds) qs = enqueueAll u ds (enqueueData u d qs) := rfl
    rw [this, ih, getQueue_enqueue_self]
    simp

/-- C9. Starting from the state right after a drain of user `u`'s queue,
appending any batch of byte strings and then dequeuing returns exactly
their concatenation in append order, and a further dequeue with no
intervening appends returns the empty byte string. -/
theorem C9_queue_drain_returns_appends (qs : Queues) (u : Nat) (ds : List (List Nat)) :
    (dequeueData u (enqueueAll u ds (dequeueData u qs).2)).1 = ds.flatten ∧
      (dequeueData u (dequeueData u (enqueueAll u ds (dequeueData u qs).2)).2).1 = [] := by
  have hget : getQueue (enqueueAll u ds (dequeueData u qs).2) u = ds.flatten := by
    rw [getQueue_enqueueAll_self, getQueue_dequeue_snd]
    simp
  exact ⟨by rw [dequeue_fst, hget], by rw [dequeue_fst, getQueue_dequeue_snd]⟩

/-- C6. The claim says a parsed client version dated more than 90 days
before today is answered with VERSION_UPDATE_FORCED + USER_ID(-2); in
the code `osu_version.date = date.today()` runs before the age test, so
the gate compares today against today minus 90 days and login proceeds
(`some false`) for every parsed date, the old ones included. -/
theorem C6_old_client_login_not_forced (d today : Int) (_h : d < today - 90) :
    loginVersionGate (some d) today = some false := by
  simp only [loginVersionGate, Option.some_inj, decide_eq_false_iff_not]
  omega

/-- Witness: version `b20200101` (ordinal 737425) against a today far
past its 90-day window. -/
theorem C6_old_client_login_not_forced_witness :
    (737425 : Int) < 740371 - 90 ∧ loginVersionGate (some 737425) 740371 = some false :=
  ⟨by decide, C6_old_client_login_not_forced 737425 740371 (by decide)⟩

/-- C4. The claim says a non-host joiner lands in the lowest-indexed
OPEN slot; in the code the walrus expression binds the boolean
`get_next_free_slot_idx() is None` and its `False` is used as list index
0, so joiner 2 is written into slot 0 — overwriting the host's slot —
while slot 1, the first OPEN slot, stays empty. -/
theorem C4_nonhost_joiner_overwrites_slot_zero :
    c4Match.getNextFreeSlotIdx = some 1 ∧
      joinMatch 2 none c4Match none =
        .joined { c4Match with
                  slots := { sessionId := some 2, status := SlotStatus.NOT_READY }
                    :: List.replicate 15 {} } := by
  decide

/-- The match state `leave_match` produces when the sole occupant (id 5)
leaves `c5Match`: the slot is "reset" but still carries session id 5. -/
def c5After : Match :=
  { c5Match with
    slots := { sessionId := some 5, status := SlotStatus.OPEN } :: List.replicate 15 {} }

/-- C5. The claim says the leaver's slot no longer holds the session and
an all-empty match is deleted and DISPOSE_MATCH broadcast; in the code
`Slot.reset` assigns `self.user = None` instead of `session_id`, so the
sole leaver's slot still holds id 5, the all-slots-empty test fails, the
match stays in the store and nothing is broadcast to `#lobby`. -/
theorem C5_leaver_slot_not_vacated_match_not_disposed :
    leaveMatch 5 (some 1) c5Match = some ⟨some c5After, false, none⟩ ∧
      (c5After.slots.getD 0 default).empty = false := by
  decide

/-- C7. The claim says the move happens exactly for an in-range OPEN
target and out-of-range ids are ignored without failure; the handler's
guard `if 0 <= packet.slot_id < 16: return` is inverted, so the valid
request (slot 1, OPEN) changes nothing, slot id −1 reaches the move
logic and mutates the match (Python wraps it to slot 15), and slot id
16 raises IndexError. -/
theorem C7_change_slot_guard_inverted :
    changeMatchSlot (some 1) 3 1 c7Match = some c7Match ∧
      (c7Match.slots.getD 1 default).status = SlotStatus.OPEN ∧
      changeMatchSlot (some 1) 3 (-1) c7Match ≠ some c7Match ∧
      changeMatchSlot (some 1) 3 16 c7Match = none := by
  decide

/-- C3. The claim says a DM to an online friend-only-DMs recipient who
does not have the sender among their friends enqueues USER_DM_BLOCKED to
the sender and no message bytes to the recipient; the handler enqueues
the blocked notice but, lacking a `return`, still calls
`receive_message`, so Bob's queue receives the full SEND_MESSAGE
packet.  Stated for every value of the packet-id/privilege constants. -/
theorem C3_blocked_dm_still_delivered (c : Consts) :
    getQueue (sendPrivateMessage c 0 c3World c3Alice "hi" "Bob").queues 1
        = dmBlockedPacket c "Bob" ∧
      getQueue (sendPrivateMessage c 0 c3World c3Alice "hi" "Bob").queues 2
        = sendMessagePacket c "Alice" "hi" "Bob" 1 ∧
      sendMessagePacket c "Alice" "hi" "Bob" 1 ≠ [] := by
  refine ⟨rfl, rfl, ?_⟩
  simp [sendMessagePacket, pwSerialise, i16write, leBytes]

/-- C10. A SEND_PUBLIC_MESSAGE or SEND_PRIVATE_MESSAGE whose content
strips to the empty string returns before any enqueue or state change:
both handlers leave the world exactly as it was. -/
theorem C10_blank_message_is_noop (c : Consts) (now : Int) (w : World)
    (sender : SessionRec) (content recipientName : String)
    (h : pyStrip content = "") :
    publicMessage c now w sender content recipientName = w ∧
      sendPrivateMessage c now w sender content recipientName = w := by
  constructor <;> simp [publicMessage, sendPrivateMessage, h]

/-- Witness: a whitespace-only message on an empty world. -/
theorem C10_blank_message_is_noop_witness :
    pyStrip " \t " = "" ∧
      (publicMessage {} 0 ⟨[], [], []⟩ ⟨1, "Alice", 0, 0, [], false, none⟩ " \t " "#osu"
          = ⟨[], [], []⟩ ∧
        sendPrivateMessage {} 0 ⟨[], [], []⟩ ⟨1, "Alice", 0, 0, [], false, none⟩ " \t " "#osu"
          = ⟨[], [], []⟩) :=
  ⟨by decide,
    C10_blank_message_is_noop {} 0 ⟨[], [], []⟩ ⟨1, "Alice", 0, 0, [], false, none⟩
      " \t " "#osu" (by decide)⟩

/-- C8. The claim says logout removes the session from every joined
channel; the loop iterates `session.channels` while `leave_channel`
removes the current element from that list, so with two channels only
the first is left: afterwards `#announce` still lists session 7 as a
member and the session's own channel list still contains it. -/
theorem C8_logout_skips_alternate_channels :
    (logoutChannels 7 c8State).channels = [⟨"#announce", true, false, [7]⟩] ∧
      (logoutChannels 7 c8State).sessionChannels = ["#announce"] := by
  decide

end Herbert
